import Mathlib

set_option maxRecDepth 8000

/-
Verification development for the recipe-suggester program (src/main.py).

Modelling conventions (shallow embedding of the Python source):
* Python strings are lists of Unicode code points: `PyStr := List Nat`;
  `st` converts a Lean string literal to that form.  The ASCII fragment of
  `str.lower` / `str.strip` is modelled (all inputs of this program are ASCII).
* Python runtime values are `PyVal`; opaque SDK objects are `vObj cls attrs`,
  where `attrs` maps an attribute name to the value the attribute holds (for
  the probed serialization methods: the value a call to the method returns).
* Operations that can raise return `Except PyExc _`; code whose internal
  exceptions are all caught is a plain function.
* `json.loads` is modelled by `json_loads`, an executable parser for the JSON
  fragment this program exercises: null, true, false, integers, strings with
  the one-character escapes, arrays, objects (no floats, no \u escapes).
* `re.search` with the three concrete patterns appearing in the source is
  modelled by `reSearchSingle`, `reSearchGreedy` and `reSearchArr`, following
  Python regex semantics: leftmost match wins, alternation is ordered, and a
  greedy dot-star under DOTALL extends to the last possible closing bracket.
-/

abbrev PyStr : Type := List Nat

def st (s : String) : PyStr := s.data.map Char.toNat

inductive PyVal : Type where
  | vNone : PyVal
  | vBool : Bool → PyVal
  | vInt : Int → PyVal
  | vStr : PyStr → PyVal
  | vList : List PyVal → PyVal
  | vDict : List (PyStr × PyVal) → PyVal
  | vObj : PyStr → List (PyStr × PyVal) → PyVal

inductive PyExc : Type where
  | valueError : PyStr → PyExc
  | typeError : PyExc
  | jsonDecodeError : PyExc

/-- Python whitespace test, ASCII fragment (space, tab, LF, CR, VT, FF). -/
def pyIsSpace (c : Nat) : Bool :=
  c = 32 || c = 9 || c = 10 || c = 13 || c = 11 || c = 12

/-- ASCII lowering of one code point, as `str.lower` does on ASCII. -/
def lowerN (c : Nat) : Nat := if 65 ≤ c ∧ c ≤ 90 then c + 32 else c

/-- `s.lower()`. -/
def pyLower (s : PyStr) : PyStr := s.map lowerN

/-- `s.strip()`: drop leading whitespace, then trailing whitespace. -/
def pyStrip (s : PyStr) : PyStr :=
  ((s.dropWhile pyIsSpace).reverse.dropWhile pyIsSpace).reverse

def natStrAux : Nat → Nat → PyStr
  | 0, _ => []
  | f + 1, n => if n < 10 then [48 + n] else natStrAux f (n / 10) ++ [48 + n % 10]

/-- Decimal rendering of a natural number. -/
def natStr (n : Nat) : PyStr := natStrAux (n + 1) n

/-- Decimal rendering of a Python int, as `str` / `repr` produce it. -/
def intStr : Int → PyStr
  | .ofNat m => natStr m
  | .negSucc m => 45 :: natStr (m + 1)

/-- Python truthiness (`bool(v)`), used by `or` chains and `if item` filters. -/
def pyTruthy : PyVal → Bool
  | .vNone => false
  | .vBool b => b
  | .vInt n => n != 0
  | .vStr s => !s.isEmpty
  | .vList xs => !xs.isEmpty
  | .vDict kvs => !kvs.isEmpty
  | .vObj _ _ => true

mutual
/-- Python `repr`.  For opaque objects the address part of the default
    `<C object at 0x...>` rendering is elided (it is not observable by any
    theorem below). -/
def pyRepr : PyVal → PyStr
  | .vNone => st "None"
  | .vBool true => st "True"
  | .vBool false => st "False"
  | .vInt n => intStr n
  | .vStr s => 39 :: s ++ [39]
  | .vList xs => 91 :: pyReprItems xs ++ [93]
  | .vDict kvs => 123 :: pyReprPairs kvs ++ [125]
  | .vObj cls _ => st "<" ++ cls ++ st " object>"

def pyReprItems : List PyVal → PyStr
  | [] => []
  | [x] => pyRepr x
  | x :: y :: rest => pyRepr x ++ st ", " ++ pyReprItems (y :: rest)

def pyReprPairs : List (PyStr × PyVal) → PyStr
  | [] => []
  | [(k, v)] => (39 :: k ++ [39]) ++ st ": " ++ pyRepr v
  | (k, v) :: p :: rest =>
      (39 :: k ++ [39]) ++ st ": " ++ pyRepr v ++ st ", " ++ pyReprPairs (p :: rest)
end

/-- Python `str`.  `str` agrees with `repr` except on strings themselves. -/
def pyStrOf : PyVal → PyStr
  | .vStr s => s
  | .vNone => st "None"
  | .vBool true => st "True"
  | .vBool false => st "False"
  | .vInt n => intStr n
  | v => pyRepr v

/-- Python `str(type(v))`, e.g. `<class \x27int\x27>`. -/
def pyTypeStr : PyVal → PyStr
  | .vNone => st "<class \x27NoneType\x27>"
  | .vBool _ => st "<class \x27bool\x27>"
  | .vInt _ => st "<class \x27int\x27>"
  | .vStr _ => st "<class \x27str\x27>"
  | .vList _ => st "<class \x27list\x27>"
  | .vDict _ => st "<class \x27dict\x27>"
  | .vObj cls _ => st "<class \x27" ++ cls ++ st "\x27>"

/-! ### The JSON parser modelling `json.loads` -/

/-- JSON inter-token whitespace (space, tab, LF, CR). -/
def jsonWs (c : Nat) : Bool := c = 32 || c = 9 || c = 10 || c = 13

def skipWs : PyStr → PyStr
  | c :: rest => if jsonWs c then skipWs rest else c :: rest
  | [] => []

/-- One-character string escapes of JSON (`\u` is not modelled: it fails). -/
def escChar (c : Nat) : Option Nat :=
  if c = 34 then some 34
  else if c = 92 then some 92
  else if c = 47 then some 47
  else if c = 98 then some 8
  else if c = 102 then some 12
  else if c = 110 then some 10
  else if c = 114 then some 13
  else if c = 116 then some 9
  else none

/-- Body of a JSON string after the opening quote; returns content and rest. -/
def parseStringBody : PyStr → Option (PyStr × PyStr)
  | [] => none
  | c :: rest =>
    if c = 34 then some ([], rest)
    else if c = 92 then
      match rest with
      | [] => none
      | e :: rest2 =>
        match escChar e with
        | none => none
        | some d =>
          match parseStringBody rest2 with
          | none => none
          | some (cs, r) => some (d :: cs, r)
    else if c < 32 then none
    else
      match parseStringBody rest with
      | none => none
      | some (cs, r) => some (c :: cs, r)

def parseDigitsAux : Nat → Nat → PyStr → Nat × PyStr
  | 0, acc, s => (acc, s)
  | f + 1, acc, s =>
    match s with
    | c :: rest =>
      if 48 ≤ c ∧ c ≤ 57 then parseDigitsAux f (acc * 10 + (c - 48)) rest
      else (acc, c :: rest)
    | [] => (acc, [])

/-- A JSON integer literal: `0`, or a nonzero digit followed by digits. -/
def parseNat (s : PyStr) : Option (Nat × PyStr) :=
  match s with
  | [] => none
  | c :: rest =>
    if c = 48 then some (0, rest)
    else if 49 ≤ c ∧ c ≤ 57 then some (parseDigitsAux rest.length (c - 48) rest)
    else none

mutual
def parseVal : Nat → PyStr → Option (PyVal × PyStr)
  | 0, _ => none
  | fuel + 1, s =>
    match skipWs s with
    | [] => none
    | c :: rest =>
      if c = 110 then
        match rest with
        | 117 :: 108 :: 108 :: r => some (.vNone, r)
        | _ => none
      else if c = 116 then
        match rest with
        | 114 :: 117 :: 101 :: r => some (.vBool true, r)
        | _ => none
      else if c = 102 then
        match rest with
        | 97 :: 108 :: 115 :: 101 :: r => some (.vBool false, r)
        | _ => none
      else if c = 34 then
        match parseStringBody rest with
        | none => none
        | some (cs, r) => some (.vStr cs, r)
      else if c = 91 then
        match skipWs rest with
        | 93 :: r => some (.vList [], r)
        | s1 =>
          match parseElems fuel s1 with
          | none => none
          | some (vs, r) => some (.vList vs, r)
      else if c = 123 then
        match skipWs rest with
        | 125 :: r => some (.vDict [], r)
        | s1 =>
          match parseMembers fuel s1 with
          | none => none
          | some (ms, r) => some (.vDict ms, r)
      else if c = 45 then
        match parseNat rest with
        | none => none
        | some (n, r) => some (.vInt (-(n : Int)), r)
      else
        match parseNat (c :: rest) with
        | none => none
        | some (n, r) => some (.vInt (n : Int), r)

/-- Elements of a nonempty array, consuming the closing bracket. -/
def parseElems : Nat → PyStr → Option (List PyVal × PyStr)
  | 0, _ => none
  | fuel + 1, s =>
    match parseVal fuel s with
    | none => none
    | some (v, r) =>
      match skipWs r with
      | 44 :: r2 =>
        match parseElems fuel r2 with
        | none => none
        | some (vs, r3) => some (v :: vs, r3)
      | 93 :: r2 => some ([v], r2)
      | _ => none

/-- Members of a nonempty object, consuming the closing brace. -/
def parseMembers : Nat → PyStr → Option (List (PyStr × PyVal) × PyStr)
  | 0, _ => none
  | fuel + 1, s =>
    match skipWs s with
    | 34 :: r =>
      match parseStringBody r with
      | none => none
      | some (k, r1) =>
        match skipWs r1 with
        | 58 :: r2 =>
          match parseVal fuel r2 with
          | none => none
          | some (v, r3) =>
            match skipWs r3 with
            | 44 :: r4 =>
              match parseMembers fuel r4 with
              | none => none
              | some (ms, r5) => some ((k, v) :: ms, r5)
            | 125 :: r4 => some ([(k, v)], r4)
            | _ => none
        | _ => none
    | _ => none
end

/-- `json.loads(s)`: parse one value, allow surrounding whitespace, reject
    trailing content.  Failure (`none`) models a raised `JSONDecodeError`. -/
def json_loads (s : PyStr) : Option PyVal :=
  match parseVal (2 * s.length + 2) s with
  | some (v, r) => if skipWs r = [] then some v else none
  | none => none

/-! ### The three regex searches of the source -/

/-- The span of `s` up to and including the last occurrence of `c`
    (empty when `c` does not occur). -/
def takeThroughLast (c : Nat) (s : PyStr) : PyStr :=
  (s.reverse.dropWhile (fun d => !(d = c : Bool))).reverse

/-- `re.search(r'(\[.\]|\{.\})', s, re.S)`: the pattern of
    `extract_json_from_crew_output` (line 35/66) matches a bracket, exactly one
    arbitrary character, and the matching closing bracket. -/
def reSearchSingle : PyStr → Option PyStr
  | c1 :: c2 :: c3 :: rest =>
    if c1 = 91 ∧ c3 = 93 then some [c1, c2, c3]
    else if c1 = 123 ∧ c3 = 125 then some [c1, c2, c3]
    else reSearchSingle (c2 :: c3 :: rest)
  | _ => none

/-- `re.search(r'(\[.*\]|\{.*\})', s, re.S)`: the pattern of
    `normalize_output` (line 268); greedy, so it extends to the last closing
    bracket; leftmost position wins. -/
def reSearchGreedy : PyStr → Option PyStr
  | [] => none
  | c :: rest =>
    if c = 91 ∧ rest.any (fun d => d = 93) then some (91 :: takeThroughLast 93 rest)
    else if c = 123 ∧ rest.any (fun d => d = 125) then some (123 :: takeThroughLast 125 rest)
    else reSearchGreedy rest

/-- `re.search(r'(\[.*\])', text, re.S)`: the array-only pattern of
    `suggest_recipes` (line 226). -/
def reSearchArr : PyStr → Option PyStr
  | [] => none
  | c :: rest =>
    if c = 91 ∧ rest.any (fun d => d = 93) then some (91 :: takeThroughLast 93 rest)
    else reSearchArr rest

/-! ### extract_json_from_crew_output (src/main.py lines 18-83) -/

def lookupA : List (PyStr × PyVal) → PyStr → Option PyVal
  | [], _ => none
  | (k, v) :: rest, nm => if k = nm then some v else lookupA rest nm

/-- Attribute lookup: only the opaque SDK objects expose attributes; every
    other runtime value fails the `hasattr`/`getattr` probes used below. -/
def getattrOpt : PyVal → PyStr → Option PyVal
  | .vObj _ attrs, nm => lookupA attrs nm
  | _, _ => none

def rawTextDict (s : PyStr) : PyVal := .vDict [(st "raw_text", .vStr s)]

/-- Body of the accessor-probing loop (lines 55-77) once the probed accessor
    has produced the value `val`: `some r` models `return r`, `none` models
    `continue` (including `val is None` and an inner parse failure). -/
def probeVal (nm : PyStr) (val : PyVal) : Option PyVal :=
  match val with
  | .vStr s =>
    match json_loads s with
    | some v => some v
    | none =>
      match reSearchSingle s with
      | some g =>
        match json_loads g with
        | some v => some v
        | none => none
      | none => some (.vDict [(st "raw_text_from_" ++ nm, .vStr s)])
  | .vDict kvs => some (.vDict kvs)
  | .vList xs => some (.vList xs)
  | _ => none

def firstSome : List (Option PyVal) → Option PyVal
  | [] => none
  | some v :: _ => some v
  | none :: rest => firstSome rest

/-- The `try_methods` chain (lines 46-53), in source order.  A missing
    accessor raises (caught, `continue`); `to_json` must return a string whose
    wholesale parse succeeds, otherwise its entry raises (caught) as well. -/
def probeMethods (obj : PyVal) : Option PyVal :=
  firstSome
    [ (getattrOpt obj (st "to_json")).bind (fun a =>
        match a with
        | .vStr s => (json_loads s).bind (probeVal (st "to_json"))
        | _ => none),
      (getattrOpt obj (st "to_dict")).bind (probeVal (st "to_dict")),
      (getattrOpt obj (st "dict")).bind (probeVal (st "dict")),
      (getattrOpt obj (st "data")).bind (probeVal (st "data")),
      (getattrOpt obj (st "content")).bind (probeVal (st "content")),
      (getattrOpt obj (st "text")).bind (probeVal (st "text")) ]

/-- Terminal diagnostic of `extract_json_from_crew_output` (lines 79-83).
    The dict display on line 81 evaluates `type(obj)._name_` — `_name_` (sic),
    not `__name__` — which raises `AttributeError` for every runtime type that
    can arise here, so the `except` branch (line 83) is the one that returns. -/
def extract_diag (obj : PyVal) : PyVal :=
  .vDict [(st "raw_str", .vStr (pyStrOf obj)), (st "type", .vStr (pyTypeStr obj))]

/-- `extract_json_from_crew_output` (lines 18-83).  All internal parse and
    accessor errors are caught, so the embedding is a total plain function. -/
def extract_json_from_crew_output (obj : PyVal) : PyVal :=
  match obj with
  | .vDict kvs => .vDict kvs
  | .vList xs => .vList xs
  | .vStr s0 =>
    let s := pyStrip s0
    match json_loads s with
    | some v => v
    | none =>
      match reSearchSingle s with
      | some g =>
        match json_loads g with
        | some v => v
        | none => rawTextDict s
      | none => rawTextDict s
  | obj =>
    match probeMethods obj with
    | some r => r
    | none => extract_diag obj

/-! ### normalize_output (src/main.py lines 261-274) -/

theorem lookupA_sizeOf {attrs : List (PyStr × PyVal)} {nm : PyStr} {v : PyVal}
    (h : lookupA attrs nm = some v) : sizeOf v < sizeOf attrs := by
  induction attrs with
  | nil => simp [lookupA] at h
  | cons p rest ih =>
    obtain ⟨k, w⟩ := p
    simp only [lookupA] at h
    split at h
    · cases h; simp; omega
    · have := ih h; simp; omega

def rawReprDict (obj : PyVal) : PyVal := .vDict [(st "raw_repr", .vStr (pyRepr obj))]

/-- `normalize_output` (lines 261-274).  The substring parse on line 270 is
    not wrapped in try/except, so its failure is a raised `JSONDecodeError`
    (`Except.error`); the `obj.raw` recursion of line 273 terminates because a
    model value is finite. -/
def normalize_output : PyVal → Except PyExc PyVal
  | .vDict kvs => .ok (.vDict kvs)
  | .vList xs => .ok (.vList xs)
  | .vStr s =>
    match json_loads s with
    | some v => .ok v
    | none =>
      match reSearchGreedy s with
      | some g =>
        match json_loads g with
        | some v => .ok v
        | none => .error .jsonDecodeError
      | none => .ok (rawTextDict s)
  | .vObj cls attrs =>
    match h : lookupA attrs (st "raw") with
    | some v => normalize_output v
    | none => .ok (rawReprDict (.vObj cls attrs))
  | .vNone => .ok (rawReprDict .vNone)
  | .vBool b => .ok (rawReprDict (.vBool b))
  | .vInt n => .ok (rawReprDict (.vInt n))
termination_by v => sizeOf v
decreasing_by
  have := lookupA_sizeOf h
  simp
  omega

/-! ### Ingredient normalization (src/main.py lines 108-148) -/

/-- The separator rewriting of line 113-114: newline, semicolon and pipe
    become commas. -/
def replSep (c : Nat) : Nat := if c = 10 || c = 59 || c = 124 then 44 else c

/-- Python `text.split(",")`: empty pieces are kept, the result is never
    empty. -/
def splitComma : PyStr → List PyStr
  | [] => [[]]
  | c :: rest =>
    if c = 44 then [] :: splitComma rest
    else
      match splitComma rest with
      | p :: ps => (c :: p) :: ps
      | [] => [[c]]

/-- The seen-set deduplication loop of lines 117-122 (first occurrence kept). -/
def dedupFirst (seen : List PyStr) : List PyStr → List PyStr
  | [] => []
  | x :: xs => if x ∈ seen then dedupFirst seen xs else x :: dedupFirst (x :: seen) xs

/-- `parse_ingredients_from_text` (lines 108-123); the `none` argument models
    a null `text` (falsy, handled by line 110 exactly like the empty string). -/
def parse_ingredients_from_text : Option PyStr → List PyStr
  | none => []
  | some t =>
    if t = [] then []
    else
      dedupFirst []
        (((splitComma (t.map replSep)).filter
            (fun i => !(pyStrip i).isEmpty)).map (fun i => pyLower (pyStrip i)))

/-- `data.get(k)`: `None` when the key is absent. -/
def dictGet (kvs : List (PyStr × PyVal)) (k : PyStr) : PyVal :=
  (lookupA kvs k).getD .vNone

/-- `list(data.values())[0]` for a nonempty mapping. -/
def firstValue (kvs : List (PyStr × PyVal)) : PyVal := (kvs.map Prod.snd).headD .vNone

/-- Python `a or b`: `a` when truthy, else `b`. -/
def pyOr (a b : PyVal) : PyVal := if pyTruthy a then a else b

/-- `for item in ingredients`: lists yield their elements, strings yield their
    one-character substrings, dicts yield their keys; other values raise
    `TypeError`. -/
def pyIterate : PyVal → Except PyExc (List PyVal)
  | .vList xs => .ok xs
  | .vStr s => .ok (s.map (fun c => .vStr [c]))
  | .vDict kvs => .ok (kvs.map (fun kv => .vStr kv.1))
  | _ => .error .typeError

/-- The comprehension of line 144:
    `[str(item).strip().lower() for item in ingredients if item]`. -/
def coerceItems (ingredients : PyVal) : Except PyExc (List PyStr) :=
  match pyIterate ingredients with
  | .error e => .error e
  | .ok items => .ok ((items.filter pyTruthy).map (fun it => pyLower (pyStrip (pyStrOf it))))

/-- The `.json` branch of `load_ingredients_from_file` (lines 129-144),
    starting from the already-parsed file content `data = json.load(f)`.
    By Python precedence the whole `or` chain is the then-operand of
    `... if data else []`, so an empty mapping selects the literal `[]`. -/
def load_ingredients_json (data : PyVal) : Except PyExc (List PyStr) :=
  match data with
  | .vList xs => coerceItems (.vList xs)
  | .vDict kvs =>
    let ingredients :=
      if kvs.isEmpty then .vList []
      else
        pyOr (pyOr (pyOr (dictGet kvs (st "ingredients")) (dictGet kvs (st "items")))
                (dictGet kvs (st "list")))
          (firstValue kvs)
    coerceItems ingredients
  | _ => .error (.valueError (st "JSON must contain a list or object with ingredients"))

/-- File content after the I/O layer: a `.json` path yields the value parsed
    by `json.load`, any other path yields the raw text read from the file. -/
inductive FileContent : Type where
  | jsonData : PyVal → FileContent
  | textData : PyStr → FileContent

/-- `load_ingredients_from_file` (lines 124-148), with the file system and
    `json.load` factored into the already-read `FileContent`. -/
def load_ingredients_from_file : FileContent → Except PyExc (List PyStr)
  | .jsonData data => load_ingredients_json data
  | .textData s => .ok (parse_ingredients_from_text (some s))

/-! ### suggest_recipes (src/main.py lines 151-233) -/

/-- `", ".join(ingredients)`. -/
def joinCommaSp : List PyStr → PyStr
  | [] => []
  | [x] => x
  | x :: y :: rest => x ++ st ", " ++ joinCommaSp (y :: rest)

/-- The f-string of lines 157-197. -/
def task_description (ingredient_text : PyStr) (num_recipes : Int) : PyStr :=
  st "\n    You are given the following list of available ingredients (exact terms; do not invent synonyms unless extremely obvious):\n    "
  ++ ingredient_text
  ++ st "\n\n    Requirements:\n        1) Propose exactly "
  ++ intStr num_recipes
  ++ st " recipe options, ordered by how well they use the provided ingredients.\n        2) For each recipe produce a JSON object with fields:\n        - title (string)\n        - used_ingredients (list)             # ingredients from the provided list that will be used\n        - missing_ingredients (list)          # required items not in provided list\n        - pantry_staples (list)               # e.g. salt, pepper, oil (each with \x27mandatory\x27 or \x27optional\x27)\n        - servings (int)\n        - prep_time_minutes (int)\n        - cook_time_minutes (int)\n        - difficulty (\"easy\"|\"medium\"|\"hard\")\n        - steps (ordered list of step strings) # clear, actionable instructions\n        - notes (string)                      # dietary/allergen warnings or substitutions\n        3) Do NOT include external links or invent brand names.\n        4) If a recipe requires >4 missing ingredients, do not propose it.\n        5) Use only common cooking techniques. Prefer recipes that use most of the provided ingredients.\n        6) Respond with a single JSON array containing the recipe objects and no additional prose.\n\n        Example schema:\n        [\n        \x7b\n            \"title\": \"...\",\n            \"used_ingredients\": [\"...\"],\n            \"missing_ingredients\": [\"...\"],\n            \"pantry_staples\": [\x7b\"name\":\"salt\", \"required\":\"optional\"\x7d],\n            \"servings\": 2,\n            \"prep_time_minutes\": 10,\n            \"cook_time_minutes\": 20,\n            \"difficulty\": \"easy\",\n            \"steps\": [\"...\",\"...\"],\n            \"notes\": \"...\"\n        \x7d,\n        ...\n    ]\n\n    TEXT: Ingredients: "
  ++ ingredient_text
  ++ st "\n    "

/-- `suggest_recipes` (lines 151-233).  The external `crew.kickoff()` call is
    the parameter `kickoff`, so every theorem below holds for an arbitrary
    collaborator; the stray `7` after the dict literal on line 233 is a syntax
    slip in the source and is modelled as returning the dict.  `servings` is
    accepted and unused, as in the source. -/
def suggest_recipes (kickoff : PyStr → PyVal) (ingredients : List PyStr)
    (num_recipes : Int) (servings : Int) : Except PyExc PyVal :=
  if ingredients.isEmpty then .error (.valueError (st "No ingredients provided."))
  else
    let ingredient_text := joinCommaSp ingredients
    let result := kickoff (task_description ingredient_text num_recipes)
    match result with
    | .vStr s =>
      match json_loads s with
      | some parsed => .ok parsed
      | none =>
        match reSearchArr (pyStrOf result) with
        | some g =>
          match json_loads g with
          | some v => .ok v
          | none => .ok (.vDict [(st "raw", result)])
        | none => .ok (.vDict [(st "raw", result)])
    | r => .ok r

/-! ### Lemmas about the normalization primitives -/

theorem lowerN_idem (c : Nat) : lowerN (lowerN c) = lowerN c := by
  simp only [lowerN]
  by_cases h : 65 ≤ c ∧ c ≤ 90
  · rw [if_pos h, if_neg (by omega)]
  · rw [if_neg h, if_neg h]

theorem pyLower_idem (s : PyStr) : pyLower (pyLower s) = pyLower s := by
  simp only [pyLower, List.map_map]
  exact List.map_congr_left fun c _ => lowerN_idem c

theorem pyIsSpace_lowerN (c : Nat) : pyIsSpace (lowerN c) = pyIsSpace c := by
  simp only [lowerN]
  split
  · rename_i h
    have h1 : pyIsSpace (c + 32) = false := by simp [pyIsSpace]; omega
    have h2 : pyIsSpace c = false := by simp [pyIsSpace]; omega
    rw [h1, h2]
  · rfl

theorem dropWhile_dropWhile {α : Type} (p : α → Bool) (l : List α) :
    (l.dropWhile p).dropWhile p = l.dropWhile p := by
  induction l with
  | nil => rfl
  | cons a t ih =>
    by_cases h : p a
    · rw [List.dropWhile_cons_of_pos h, ih]
    · rw [List.dropWhile_cons_of_neg h, List.dropWhile_cons_of_neg h]

theorem dropWhile_rstrip {α : Type} (p : α → Bool) (l : List α)
    (h : l.dropWhile p = l) :
    ((l.reverse.dropWhile p).reverse).dropWhile p = (l.reverse.dropWhile p).reverse := by
  cases l with
  | nil => rfl
  | cons a t =>
    have ha : ¬p a = true := by
      intro hc
      rw [List.dropWhile_cons_of_pos hc] at h
      have hlen := congrArg List.length h
      have hle := (List.dropWhile_sublist (l := t) p).length_le
      simp at hlen
      omega
    rw [List.reverse_cons, List.dropWhile_append]
    split
    · rw [List.dropWhile_cons_of_neg ha]
      simp only [List.reverse_cons, List.reverse_nil, List.nil_append]
      rw [List.dropWhile_cons_of_neg ha]
    · rw [List.reverse_append]
      simp only [List.reverse_cons, List.reverse_nil, List.nil_append, List.cons_append]
      rw [List.dropWhile_cons_of_neg ha]

theorem pyStrip_idem (s : PyStr) : pyStrip (pyStrip s) = pyStrip s := by
  unfold pyStrip
  have hu : (s.dropWhile pyIsSpace).dropWhile pyIsSpace = s.dropWhile pyIsSpace :=
    dropWhile_dropWhile pyIsSpace s
  rw [dropWhile_rstrip pyIsSpace (s.dropWhile pyIsSpace) hu,
    List.reverse_reverse, dropWhile_dropWhile]

theorem pyStrip_pyLower_comm (s : PyStr) : pyStrip (pyLower s) = pyLower (pyStrip s) := by
  have hcomp : pyIsSpace ∘ lowerN = pyIsSpace := funext pyIsSpace_lowerN
  simp only [pyStrip, pyLower]
  rw [List.dropWhile_map, hcomp, ← List.map_reverse, List.dropWhile_map, hcomp,
    ← List.map_reverse]

theorem pyStrip_pyLower_pyStrip (s : PyStr) :
    pyStrip (pyLower (pyStrip s)) = pyLower (pyStrip s) := by
  rw [pyStrip_pyLower_comm, pyStrip_idem]

theorem mem_dedupFirst {x : PyStr} :
    ∀ {l seen : List PyStr}, x ∈ dedupFirst seen l → x ∈ l := by
  intro l
  induction l with
  | nil => intro seen h; simp [dedupFirst] at h
  | cons a t ih =>
    intro seen h
    simp only [dedupFirst] at h
    split at h
    · exact List.mem_cons_of_mem _ (ih h)
    · rcases List.mem_cons.mp h with rfl | h2
      · exact List.mem_cons_self _ _
      · exact List.mem_cons_of_mem _ (ih h2)

theorem dedupFirst_nodup :
    ∀ (l seen : List PyStr), (dedupFirst seen l).Nodup ∧ ∀ x ∈ dedupFirst seen l, x ∉ seen := by
  intro l
  induction l with
  | nil => intro seen; simp [dedupFirst]
  | cons a t ih =>
    intro seen
    simp only [dedupFirst]
    split
    · exact ih seen
    · rename_i ha
      obtain ⟨hnd, hni⟩ := ih (a :: seen)
      refine ⟨List.nodup_cons.mpr ⟨fun hmem => hni a hmem (List.mem_cons_self a seen), hnd⟩, ?_⟩
      intro x hx
      rcases List.mem_cons.mp hx with rfl | hx2
      · exact ha
      · intro hxseen
        exact hni x hx2 (List.mem_cons_of_mem a hxseen)

/-- Structured values (a Python list or dict): exactly the values strategy 1
    of the recovery chain returns unchanged, and the shapes the `.json` loader
    accepts. -/
def isStructured : PyVal → Bool
  | .vList _ => true
  | .vDict _ => true
  | _ => false

theorem extract_json_structured_fix {w : PyVal} (h : isStructured w = true) :
    extract_json_from_crew_output w = w := by
  cases w <;> first | rfl | simp [isStructured] at h

theorem normalize_output_structured_fix {w : PyVal} (h : isStructured w = true) :
    normalize_output w = .ok w := by
  cases w <;> first | (unfold normalize_output; rfl) | simp [isStructured] at h

/-! ### Claim theorems -/

/-- Claim C1 (code bug evaluated): on the string `[a]` — whose extracted
    bracket-delimited substring is not valid JSON — `normalize_output` raises
    `JSONDecodeError` (the parse on line 270 is unguarded), while
    `extract_json_from_crew_output` swallows the failure and returns the
    `raw_text` diagnostic, so the recovery operation does have a failure mode
    visible to its caller. -/
theorem normalize_output_raises_on_invalid_span :
    normalize_output (.vStr (st "[a]")) = .error .jsonDecodeError ∧
    extract_json_from_crew_output (.vStr (st "[a]")) =
      .vDict [(st "raw_text", .vStr (st "[a]"))] :=
  ⟨by unfold normalize_output; rfl, rfl⟩

/-- Claim C2 (code bug evaluated): on the spec's example string the pattern
    `(\[.\]|\{.\})` of `extract_json_from_crew_output` — one single character
    between the delimiters — finds nothing, so the function answers with the
    `raw_text` diagnostic instead of the parsed list; `normalize_output`, whose
    pattern `(\[.*\]|\{.*\})` is the greedy one the claim describes, does
    return the parsed list. -/
theorem extract_json_regex_misses_greedy_span :
    extract_json_from_crew_output
        (.vStr (st "Here is your answer: [\x7b\"title\":\"Soup\"\x7d] Enjoy!")) =
      .vDict [(st "raw_text",
        .vStr (st "Here is your answer: [\x7b\"title\":\"Soup\"\x7d] Enjoy!"))] ∧
    normalize_output
        (.vStr (st "Here is your answer: [\x7b\"title\":\"Soup\"\x7d] Enjoy!")) =
      .ok (.vList [.vDict [(st "title", .vStr (st "Soup"))]]) :=
  ⟨rfl, by unfold normalize_output; rfl⟩

/-- Claim C3 counterexample: loading a `.json` file whose content is the empty
    mapping does not signal any error — it returns the empty ingredient
    list. -/
theorem load_json_empty_dict_no_error :
    load_ingredients_from_file (.jsonData (.vDict [])) = .ok [] ∧
    load_ingredients_from_file (.jsonData (.vDict [])) ≠
      .error (.valueError (st "JSON must contain a list or object with ingredients")) :=
  ⟨rfl, by
    intro h
    rw [show load_ingredients_from_file (.jsonData (.vDict [])) =
        (.ok [] : Except PyExc (List PyStr)) from rfl] at h
    exact Except.noConfusion h⟩

/-- Claim C3 amended: a `.json` file whose top level is neither a list nor a
    mapping (a scalar: null, boolean, number, string) raises the `ValueError`
    of line 141; an empty mapping, however, does not raise — it yields the
    empty ingredient list. -/
theorem load_json_scalar_raises :
    (∀ v : PyVal, isStructured v = false →
        load_ingredients_from_file (.jsonData v) =
          .error (.valueError (st "JSON must contain a list or object with ingredients"))) ∧
    load_ingredients_from_file (.jsonData (.vDict [])) = .ok [] := by
  refine ⟨?_, rfl⟩
  intro v h
  cases v <;> first | rfl | simp [isStructured] at h

/-- Witness for the amended C3 at the concrete scalar `0`. -/
theorem load_json_scalar_raises_witness :
    load_ingredients_from_file (.jsonData (.vInt 0)) =
      .error (.valueError (st "JSON must contain a list or object with ingredients")) :=
  load_json_scalar_raises.1 (.vInt 0) rfl

/-- Claim C4 (code bug evaluated): when every recovery strategy fails (here:
    the integer 42), the dict display of line 81 evaluates `type(obj)._name_`
    — a typo for `__name__` — which raises `AttributeError`, so the function
    returns the `except` branch value `\x7b"raw_str": str(obj), "type":
    str(type(obj))\x7d` instead of the claimed `\x7b"raw_repr": repr(obj),
    "type": <type name>\x7d`. -/
theorem extract_json_diag_uses_raw_str :
    extract_json_from_crew_output (.vInt 42) =
      .vDict [(st "raw_str", .vStr (st "42")),
              (st "type", .vStr (st "<class \x27int\x27>"))] := rfl

/-- Claim C5 counterexample: with `ingredients` present but bound to the falsy
    `[]`, the present key does not win — the truthy `items` value is used, so
    the result is `["egg"]`, not the `[]` that first-present-key semantics
    would give. -/
theorem load_json_present_falsy_key_skipped :
    load_ingredients_from_file (.jsonData
        (.vDict [(st "ingredients", .vList []), (st "items", .vList [.vStr (st "Egg")])])) =
      .ok [st "egg"] ∧
    ([st "egg"] : List PyStr) ≠ [] :=
  ⟨rfl, by decide⟩

/-- Modelled from the amended reading of the spec sentence: the ingredient
    source selected from a mapping is the value of the first of the keys
    `ingredients`, `items`, `list` that is present with a truthy value, and
    the mapping's first value when no such key exists. -/
def firstTruthyKeyOrFirstValue (kvs : List (PyStr × PyVal)) : PyVal :=
  match ([st "ingredients", st "items", st "list"].map (dictGet kvs)).find? pyTruthy with
  | some v => v
  | none => firstValue kvs

/-- Claim C5 amended: for a nonempty mapping, the loader uses the first of the
    keys `ingredients`, `items`, `list` (in that order) whose value is truthy
    — a key present with a falsy value is skipped — and falls back to the
    mapping's first value when none of the three has a truthy value. -/
theorem load_json_dict_first_truthy (kvs : List (PyStr × PyVal)) (h : kvs ≠ []) :
    load_ingredients_from_file (.jsonData (.vDict kvs)) =
      coerceItems (firstTruthyKeyOrFirstValue kvs) := by
  have hne : kvs.isEmpty = false := by
    cases kvs
    · exact absurd rfl h
    · rfl
  simp only [load_ingredients_from_file, load_ingredients_json, hne, Bool.false_eq_true,
    if_false, firstTruthyKeyOrFirstValue, List.map_cons, List.map_nil, List.find?]
  cases h1 : pyTruthy (dictGet kvs (st "ingredients")) <;>
    cases h2 : pyTruthy (dictGet kvs (st "items")) <;>
      cases h3 : pyTruthy (dictGet kvs (st "list")) <;>
        simp [pyOr, h1, h2, h3]

/-- Witness for the amended C5 at the counterexample mapping. -/
theorem load_json_dict_first_truthy_witness :
    load_ingredients_from_file (.jsonData
        (.vDict [(st "ingredients", .vList []), (st "items", .vList [.vStr (st "Egg")])])) =
      coerceItems (firstTruthyKeyOrFirstValue
        [(st "ingredients", .vList []), (st "items", .vList [.vStr (st "Egg")])]) :=
  load_json_dict_first_truthy _ (List.cons_ne_nil _ _)

/-- Claim C6: `normalize_text` yields lowercase, trimmed, nonempty,
    duplicate-free entries in first-seen order for every mix of the four
    separators; the spec's example evaluates as stated, and null/empty input
    yields the empty list without error. -/
theorem normalize_text_props :
    (∀ s x, x ∈ parse_ingredients_from_text (some s) →
        pyLower x = x ∧ pyStrip x = x ∧ x ≠ []) ∧
    (∀ s, (parse_ingredients_from_text (some s)).Nodup) ∧
    parse_ingredients_from_text (some (st "Tomato\nOnion, onion ; Garlic|garlic")) =
      [st "tomato", st "onion", st "garlic"] ∧
    parse_ingredients_from_text none = [] ∧
    parse_ingredients_from_text (some (st "")) = [] := by
  have parse_some_eq : ∀ (t : PyStr), t ≠ [] →
      parse_ingredients_from_text (some t) =
        dedupFirst []
          (((splitComma (t.map replSep)).filter
              (fun i => !(pyStrip i).isEmpty)).map (fun i => pyLower (pyStrip i))) := by
    intro t ht
    simp only [parse_ingredients_from_text]
    rw [if_neg ht]
  refine ⟨?_, ?_, by decide, rfl, rfl⟩
  · intro s x hx
    by_cases hs : s = []
    · subst hs
      rw [show parse_ingredients_from_text (some ([] : PyStr)) = [] from rfl] at hx
      simp at hx
    · rw [parse_some_eq s hs] at hx
      have hx2 := mem_dedupFirst hx
      rw [List.mem_map] at hx2
      obtain ⟨i, hi, rfl⟩ := hx2
      rw [List.mem_filter] at hi
      have hne : pyStrip i ≠ [] := by
        have h2 := hi.2
        simp only [Bool.not_eq_eq_eq_not, Bool.not_false, List.isEmpty_eq_true] at h2
        simpa using h2
      exact ⟨pyLower_idem _, pyStrip_pyLower_pyStrip _, by
        simp only [pyLower, ne_eq, List.map_eq_nil_iff]; exact hne⟩
  · intro s
    by_cases hs : s = []
    · subst hs
      exact List.nodup_nil
    · rw [parse_some_eq s hs]
      exact (dedupFirst_nodup _ _).1

/-- Witness for C6 at a concrete input and element. -/
theorem normalize_text_props_witness :
    pyLower (st "tomato") = st "tomato" ∧ pyStrip (st "tomato") = st "tomato" ∧
      st "tomato" ≠ [] :=
  normalize_text_props.1 (st "Tomato") (st "tomato") (by decide)

/-- Claim C7: the `.json` list branch does not deduplicate — a bare list
    `["Flour", "Flour"]` yields `["flour", "flour"]` — while every element is
    coerced to a string, trimmed and lowercased and falsy elements are
    dropped; `normalize_text`, by contrast, does deduplicate. -/
theorem load_json_list_preserves_duplicates :
    load_ingredients_from_file (.jsonData (.vList [.vStr (st "Flour"), .vStr (st "Flour")])) =
      .ok [st "flour", st "flour"] ∧
    load_ingredients_from_file (.jsonData
        (.vList [.vStr (st " Flour "), .vStr (st "Flour"), .vStr (st ""), .vInt 5, .vNone])) =
      .ok [st "flour", st "flour", st "5"] ∧
    parse_ingredients_from_text (some (st "Flour,Flour")) = [st "flour"] :=
  ⟨rfl, rfl, rfl⟩

/-- Claim C8: the recovery operation is idempotent on structured results —
    whenever it returns a sequence or a mapping, applying it again to that
    output returns it unchanged (strategy 1), for both
    `extract_json_from_crew_output` and `normalize_output`. -/
theorem recover_idempotent_on_structured :
    (∀ v, isStructured (extract_json_from_crew_output v) = true →
        extract_json_from_crew_output (extract_json_from_crew_output v) =
          extract_json_from_crew_output v) ∧
    (∀ v r, normalize_output v = .ok r → isStructured r = true →
        normalize_output r = .ok r) := by
  constructor
  · intro v h
    exact extract_json_structured_fix h
  · intro v r _ h
    exact normalize_output_structured_fix h

/-- Witness for C8 at the empty list. -/
theorem recover_idempotent_witness :
    extract_json_from_crew_output (extract_json_from_crew_output (.vList [])) =
        extract_json_from_crew_output (.vList []) ∧
    normalize_output (.vList []) = .ok (.vList []) :=
  ⟨recover_idempotent_on_structured.1 (.vList []) rfl,
   recover_idempotent_on_structured.2 (.vList []) (.vList [])
     (by unfold normalize_output; rfl) rfl⟩

/-- Claim C9: with an empty ingredient list, `suggest_recipes` raises
    `ValueError("No ingredients provided.")` uniformly in the collaborator —
    the error is produced before the prompt is built or `kickoff` is ever
    consulted. -/
theorem suggest_recipes_empty_aborts (kickoff : PyStr → PyVal) (n s : Int) :
    suggest_recipes kickoff [] n s = .error (.valueError (st "No ingredients provided.")) := rfl

/-- Claim C10 counterexample: with the first value of a known-key-free mapping
    being the string `a b`, the loader produces one entry per character —
    three entries, the space surviving as the empty string — not the two
    non-whitespace entries the claim predicts. -/
theorem load_json_string_value_space_entries :
    load_ingredients_from_file (.jsonData (.vDict [(st "x", .vStr (st "a b"))])) =
      .ok [st "a", [], st "b"] ∧
    ([st "a", ([] : PyStr), st "b"] : List PyStr) ≠ [st "a", st "b"] :=
  ⟨rfl, by decide⟩

/-- Per-character effect of `str(item).strip().lower()` on a one-character
    string: whitespace becomes the empty string, anything else is lowered. -/
theorem char_norm (c : Nat) : pyLower (pyStrip [c]) = if pyIsSpace c then [] else [lowerN c] := by
  by_cases h : pyIsSpace c
  · rw [if_pos h]
    simp [pyStrip, pyLower, List.dropWhile_cons_of_pos h]
  · rw [if_neg h]
    simp [pyStrip, pyLower, List.dropWhile_cons_of_neg h]

/-- Claim C10 amended: when a known-key-free mapping's first value is a string,
    the loader iterates over the string's characters and yields one entry per
    character — each non-whitespace character lowercased, and each whitespace
    character yielding an empty-string entry, because the `if item` filter
    sees the raw one-character string (always truthy) while `strip` empties
    it. -/
theorem load_json_string_value_iterates_chars (s : PyStr) :
    load_ingredients_from_file (.jsonData (.vDict [(st "x", .vStr s)])) =
      .ok (s.map fun c => if pyIsSpace c then [] else [lowerN c]) := by
  have hsel : load_ingredients_from_file (.jsonData (.vDict [(st "x", .vStr s)])) =
      coerceItems (.vStr s) := rfl
  rw [hsel]
  simp only [coerceItems, pyIterate]
  rw [List.filter_eq_self.mpr (by intro a ha; rw [List.mem_map] at ha; obtain ⟨c, _, rfl⟩ := ha; rfl)]
  rw [List.map_map]
  exact congrArg Except.ok (List.map_congr_left fun c _ => char_norm c)
